import Mathlib

/-
Verification development for the caps-lock synchronization client
(src/src/client.rs).  The client is a single `main` with three pieces:

* per-OS `platform` modules with `get_capslock_state` / `set_capslock_state`
  (lines 10-113);
* a supervisor loop that connects a websocket, sends the initial state, and
  on connect error sleeps 2 seconds before retrying (lines 126-196);
* per connection, a reader task forwarding websocket messages into an
  unbounded channel, and a state-checker task that polls the indicator,
  sends edge-triggered updates, and drains at most one queued message per
  50 ms cycle (lines 139-189).

Modelling conventions.  The OS caps-lock indicator is external to the
process: `get_capslock_state` reads a sysfs LED file (Linux), and
`set_capslock_state` shells out to a toggle command whose exit status the
code ignores, so a write is not guaranteed to be reflected by later reads
(a human can also toggle the physical key at any time).  We therefore model
the sequence of values returned by `get_capslock_state` as an oracle
`reads : Nat -> Bool`, consumed left to right: each call to
`get_capslock_state` takes the value at the current index and advances the
index.  Network effects (what `rx.recv()` yields, whether `write.send`
succeeds) are per-cycle inputs.  Invocations of `set_capslock_state` and
`write.send` are recorded as events.  A task panic (from `.expect`) is
modelled as `none` / `WriteOutcome.panicked`.
-/

namespace GlobalRustlock

/-- An OS-level command issued by a platform `set_capslock_state` body:
`osascript` (macOS, sets the absolute lock state via IOHIDSetModifierLockState),
`keybd_event` (Windows, toggles), `xdotool key Caps_Lock` (Linux, toggles). -/
inductive OsCmd
  | osascript (enabled : Bool)
  | keybdToggle
  | xdotoolToggle
  deriving DecidableEq

/-- Outcome of a platform write: either it returns, or the `.expect` on a
failed command spawn panics, killing the calling task. -/
inductive WriteOutcome
  | ok
  | panicked
  deriving DecidableEq

namespace macos

/-- macOS `set_capslock_state` (client.rs lines 21-48): builds an osascript
program carrying the absolute desired value and runs it unconditionally.
The source performs no read of the current state; the `_current` argument
stands for whatever a fresh read would have returned and is ignored,
mirroring that independence. -/
def set_capslock_state (enabled : Bool) (_current : Bool) : List OsCmd :=
  [OsCmd.osascript enabled]

end macos

namespace windows

/-- Windows `set_capslock_state` (client.rs lines 62-70): reads the current
state via `get_capslock_state` and issues the `keybd_event` toggle pair only
when it differs from `enabled`. -/
def set_capslock_state (enabled : Bool) (current : Bool) : List OsCmd :=
  if current ≠ enabled then [OsCmd.keybdToggle] else []

end windows

namespace linux

/-- Linux `set_capslock_state` (client.rs lines 98-106): reads the current
state, and if it differs from `enabled` runs `xdotool key Caps_Lock` with
`.status().expect(..)`.  `spawn` is the result of launching the command:
`some code` means the command ran and returned exit status `code`, which the
source discards; `none` means the spawn itself failed, so `.expect` panics.
Returns the commands issued and whether the call panicked. -/
def set_capslock_state (enabled : Bool) (current : Bool) (spawn : Option Int) :
    List OsCmd × WriteOutcome :=
  if current ≠ enabled then
    ([OsCmd.xdotoolToggle],
      match spawn with
      | some _ => WriteOutcome.ok
      | none => WriteOutcome.panicked)
  else ([], WriteOutcome.ok)

end linux

/-- A websocket message as seen through `msg.to_text()` in the state-checker
task: either a text payload, or a frame on which `to_text` fails (which the
`if let Ok(text)` silently skips). -/
inductive InMsg
  | text (s : String)
  | nonText
  deriving DecidableEq

/-- Outcome of `timeout(Duration::from_millis(50), rx.recv())` in one cycle:
a forwarded message (`Ok(Some(msg))`), a closed channel after the reader
task ended (`Ok(None)`), or an expired timeout (`Err(_)`).  The source
matches `Ok(Some(msg))` explicitly and sends both other outcomes to
catch-all arms that do nothing. -/
inductive RecvOutcome
  | msg (m : InMsg)
  | chanClosed
  | elapsed
  deriving DecidableEq

/-- The non-indicator inputs of one state-checker cycle: what the bounded
receive yields, and whether `write.send` would succeed if attempted. -/
structure NetInput where
  recv : RecvOutcome
  sendOk : Bool
  deriving DecidableEq

/-- Observable actions of a session: a `write.send(Message::Text s)` on the
websocket, or an invocation of `platform::set_capslock_state b`. -/
inductive Event
  | sent (s : String)
  | wrote (b : Bool)
  deriving DecidableEq

/-- State of the state-checker task: `last` is the `last_state` variable,
`idx` the next position in the indicator-read oracle, `events` the actions
performed so far, `stopped` whether the loop has exited via `break`. -/
structure CheckerSt where
  last : Bool
  idx : Nat
  events : List Event
  stopped : Bool
  deriving DecidableEq

/-- Encoding of an indicator state on the wire: `"1"` for on, `"0"` for
off (client.rs lines 134 and 159). -/
def encodeState (b : Bool) : String :=
  if b then "1" else "0"

/-- The body of the `Ok(Some(msg))` arm (client.rs lines 169-177) given the
payload, the re-read indicator value and the current `last_state`:
`target_state` is `payload == "1"`; if it differs from the fresh read the
write is invoked and `last_state` becomes `target_state`, otherwise nothing
happens.  Returns (write invoked?, new `last_state`). -/
def applyRemote (payload : String) (reRead : Bool) (last : Bool) : Bool × Bool :=
  if (payload == "1") ≠ reRead then (true, payload == "1") else (false, last)

/-- The receive half of one state-checker cycle (client.rs lines 167-180):
drain at most one message; a text payload goes through `applyRemote` with a
fresh indicator read; `to_text` failures, a closed channel and an expired
timeout all fall through to the catch-all arms and change nothing.  The
loop never exits from here. -/
def recvPhase (reads : Nat → Bool) (last : Bool) (idx : Nat) (events : List Event)
    (r : RecvOutcome) : CheckerSt :=
  match r with
  | RecvOutcome.msg (InMsg.text s) =>
      ⟨(applyRemote s (reads idx) last).2, idx + 1,
        events ++ (if (applyRemote s (reads idx) last).1
          then [Event.wrote (applyRemote s (reads idx) last).2] else []),
        false⟩
  | RecvOutcome.msg InMsg.nonText => ⟨last, idx, events, false⟩
  | RecvOutcome.chanClosed => ⟨last, idx, events, false⟩
  | RecvOutcome.elapsed => ⟨last, idx, events, false⟩

/-- One cycle of the state-checker loop (client.rs lines 155-183): read the
indicator; if it differs from `last_state`, send the encoded new value —
`break` if the send fails — and update `last_state`; then run the receive
phase.  A stopped checker stays stopped (its loop has exited). -/
def checkerCycle (reads : Nat → Bool) (st : CheckerSt) (inp : NetInput) : CheckerSt :=
  if st.stopped then st
  else if reads st.idx ≠ st.last then
    if inp.sendOk then
      recvPhase reads (reads st.idx) (st.idx + 1)
        (st.events ++ [Event.sent (encodeState (reads st.idx))]) inp.recv
    else ⟨st.last, st.idx + 1, st.events, true⟩
  else recvPhase reads st.last (st.idx + 1) st.events inp.recv

/-- Run the state-checker loop over a list of per-cycle network inputs. -/
def checkerRun (reads : Nat → Bool) (st : CheckerSt) : List NetInput → CheckerSt
  | [] => st
  | inp :: rest => checkerRun reads (checkerCycle reads st inp) rest

/-- Initial state of the state-checker task (client.rs line 153): its
`last_state` comes from its own fresh `get_capslock_state()` call, consumed
at `startIdx` of the oracle. -/
def checkerInit (reads : Nat → Bool) (startIdx : Nat) : CheckerSt :=
  ⟨reads startIdx, startIdx + 1, [], false⟩

/-- Event trace of one connected session whose initial send succeeds
(client.rs lines 132-189): `main` reads the indicator (oracle index 0) and
sends it encoded; the state-checker task then initializes `last_state` from
a second, separate read (index 1) and runs its cycles. -/
def sessionTrace (reads : Nat → Bool) (inputs : List NetInput) : List Event :=
  Event.sent (encodeState (reads 0)) ::
    (checkerRun reads (checkerInit reads 1) inputs).events

/-- The `Ok(Some(msg))` arm with the Linux write body inlined (client.rs
lines 169-177 composed with lines 98-106): `reRead` is the checker's own
fresh read, `writeRead` the read performed inside `set_capslock_state`,
`spawn` the xdotool spawn result.  Returns the new `last_state`, or `none`
when the write's `.expect` panicked — which kills the state-checker task
and hence, via the `select!` in `main`, ends the session. -/
def inboundApplyLinux (payload : String) (reRead : Bool) (writeRead : Bool)
    (spawn : Option Int) (last : Bool) : Option Bool :=
  if (payload == "1") ≠ reRead then
    match (linux.set_capslock_state (payload == "1") writeRead spawn).2 with
    | WriteOutcome.panicked => none
    | WriteOutcome.ok => some (payload == "1")
  else some last

/-- Outcome of one pass of the supervisor loop in `main` (client.rs lines
126-196): the connect failed; the connect succeeded but the initial send
failed (`continue`); or the connect succeeded and the session ran until one
of its tasks finished. -/
inductive ConnectOutcome
  | connErr
  | sendFail
  | session
  deriving DecidableEq

/-- Observable steps of the supervisor loop: a connect attempt, a
`sleep(Duration::from_secs(2))` (2000 ms), or a session running to
completion. -/
inductive SupEvent
  | attempt
  | sleepMs (n : Nat)
  | sessionRun
  deriving DecidableEq

/-- Trace of the supervisor loop over a list of connect outcomes
(client.rs lines 126-196): every iteration attempts a connect; only a
connect error is followed by a sleep (2 seconds); after a failed initial
send or a completed session the loop re-enters immediately. -/
def supervisorTrace : List ConnectOutcome → List SupEvent
  | [] => []
  | ConnectOutcome.connErr :: rest =>
      SupEvent.attempt :: SupEvent.sleepMs 2000 :: supervisorTrace rest
  | ConnectOutcome.sendFail :: rest =>
      SupEvent.attempt :: supervisorTrace rest
  | ConnectOutcome.session :: rest =>
      SupEvent.attempt :: SupEvent.sessionRun :: supervisorTrace rest

/-- Recognizer for connect attempts in a supervisor trace. -/
def isAttempt : SupEvent → Bool
  | SupEvent.attempt => true
  | _ => false

/-- Recognizer for sleeps in a supervisor trace. -/
def isSleep : SupEvent → Bool
  | SupEvent.sleepMs _ => true
  | _ => false

/-- Recognizer for completed sessions in a supervisor trace. -/
def isSessionRun : SupEvent → Bool
  | SupEvent.sessionRun => true
  | _ => false

/-- Recognizer for connect errors among connect outcomes. -/
def isConnErr : ConnectOutcome → Bool
  | ConnectOutcome.connErr => true
  | _ => false

/-- True when somewhere in the trace a completed session is immediately
followed by a sleep — i.e. when a reconnect after a session incurs a
delay. -/
def sleepAfterSession : List SupEvent → Bool
  | [] => false
  | [_] => false
  | a :: b :: rest => (isSessionRun a && isSleep b) || sleepAfterSession (b :: rest)

end GlobalRustlock

namespace GlobalRustlock

/-- Claim C7 (confirmed): for every successful connect whose initial send
goes through, the first application-level message of the session is the
client's own indicator state from the single adapter read performed on
entry (oracle index 0), encoded as "1" for on and "0" for off, before any
polling or message handling contributes events. -/
theorem c7_initial_state_first (reads : Nat → Bool) (inputs : List NetInput) :
    (sessionTrace reads inputs).head? = some (Event.sent (encodeState (reads 0))) := by
  simp [sessionTrace]

/-- Claim C9 (confirmed): the reconciler computes the desired state as
the equality test payload == "1", so every payload other than exactly "1"
is interpreted as desired state off: when the re-read indicator is on the
write is invoked with off and last_state becomes off, and when it is off
nothing happens. -/
theorem c9_payload_eq_one (s : String) (last : Bool) (hs : s ≠ "1") :
    applyRemote s true last = (true, false) ∧ applyRemote s false last = (false, last) := by
  have hb : (s == "1") = false := by simp [hs]
  constructor
  · simp [applyRemote, hb]
  · simp [applyRemote, hb]

/-- Witness for C9 at the payload "banana" with the indicator on: the
write is invoked with off and last_state set to off. -/
theorem c9_payload_eq_one_witness :
    ("banana" ≠ ("1" : String)) ∧ applyRemote "banana" true true = (true, false) :=
  ⟨by decide, (c9_payload_eq_one "banana" true (by decide)).1⟩

/-- Claim C4 (confirmed): for a remote message drained in a cycle with no
concurrent local transition, the adapter write is not invoked when the
message's desired state equals the indicator state re-read at that moment;
it is invoked exactly when the re-read value differs, and then last_state
is updated to the applied value. -/
theorem c4_echo_avoidance (reads : Nat → Bool) (st : CheckerSt) (s : String) (sendOk : Bool)
    (h1 : st.stopped = false) (h2 : reads st.idx = st.last) :
    checkerCycle reads st ⟨RecvOutcome.msg (InMsg.text s), sendOk⟩ =
      if (s == "1") = reads (st.idx + 1) then
        ⟨st.last, st.idx + 2, st.events, false⟩
      else
        ⟨(s == "1"), st.idx + 2, st.events ++ [Event.wrote (s == "1")], false⟩ := by
  by_cases hc : (s == "1") = reads (st.idx + 1)
  · simp [checkerCycle, recvPhase, applyRemote, h1, h2, hc]
  · simp [checkerCycle, recvPhase, applyRemote, h1, h2, hc]

/-- Witness for C4: an echoed "1" with the indicator already on is drained
without invoking the write and without any event. -/
theorem c4_echo_avoidance_witness :
    checkerCycle (fun _ => true) (checkerInit (fun _ => true) 0)
      ⟨RecvOutcome.msg (InMsg.text "1"), true⟩ = ⟨true, 3, [], false⟩ := by
  rw [c4_echo_avoidance (fun _ => true) (checkerInit (fun _ => true) 0) "1" true rfl rfl]
  decide

/-- Claim C6 (corrected), amended part: the fresh-read no-op check holds
for the Windows and Linux write implementations, which issue their toggle
exactly when the current state differs from the desired one; the macOS
implementation performs no read and unconditionally issues one osascript
command that sets the absolute state. -/
theorem c6_write_noop_amended (enabled current : Bool) (spawn : Option Int) :
    windows.set_capslock_state enabled current
        = (if current = enabled then [] else [OsCmd.keybdToggle])
    ∧ (linux.set_capslock_state enabled current spawn).1
        = (if current = enabled then [] else [OsCmd.xdotoolToggle])
    ∧ macos.set_capslock_state enabled current = [OsCmd.osascript enabled] := by
  refine ⟨?_, ?_, rfl⟩
  · by_cases h : current = enabled <;> simp [windows.set_capslock_state, h]
  · by_cases h : current = enabled <;> simp [linux.set_capslock_state, h]

/-- Counterexample to C6 as stated: on macOS, with the desired state on
and the current state already on, the write still issues an OS command
(the claim says write is a no-op issuing no OS command whenever a fresh
read already equals the desired value, and that this holds on macOS). -/
theorem c6_write_noop_cx :
    macos.set_capslock_state true true = [OsCmd.osascript true] := rfl

/-- Claim C2 (corrected), amended part: on Linux, when the xdotool toggle
command can be spawned, its exit status is discarded whatever it is — a
command that ran and failed is silently ignored (not logged), the cycle
completes, and last_state is still updated, so a later reconciliation
cycle can re-attempt. -/
theorem c2_write_failure_amended (payload : String) (reRead writeRead last : Bool) (code : Int) :
    inboundApplyLinux payload reRead writeRead (some code) last
      = some (if (payload == "1") ≠ reRead then (payload == "1") else last) := by
  by_cases h : (payload == "1") ≠ reRead
  · by_cases h2 : writeRead = (payload == "1") <;>
      simp [inboundApplyLinux, linux.set_capslock_state, h, h2]
  · simp [inboundApplyLinux, h]

/-- Counterexample to C2 as stated: a remote "1" arrives with the
indicator off, and spawning the xdotool command fails; the expect call in
set_capslock_state panics, which kills the state-checker task and — via
the select in main — ends the session. The write failure therefore does
terminate the session, and nothing is re-attempted by a later cycle of it. -/
theorem c2_write_failure_cx :
    inboundApplyLinux "1" false false none true = none := by decide

/-- Claim C1 (corrected), amended part: an inbound text payload other than
"1" does not crash the reconciler, but it is not ignored either: it is
interpreted as desired state off, so with no concurrent local transition
the cycle completes normally, invoking write(off) and setting last_state
to off exactly when the re-read indicator is on, and doing nothing when it
is already off. -/
theorem c1_malformed_payload_amended (reads : Nat → Bool) (st : CheckerSt) (s : String)
    (hs : s ≠ "1") (h1 : st.stopped = false) (h2 : reads st.idx = st.last) :
    checkerCycle reads st ⟨RecvOutcome.msg (InMsg.text s), true⟩ =
      if reads (st.idx + 1) then
        ⟨false, st.idx + 2, st.events ++ [Event.wrote false], false⟩
      else
        ⟨st.last, st.idx + 2, st.events, false⟩ := by
  have hb : (s == "1") = false := by simp [hs]
  cases hr : reads (st.idx + 1) <;>
    simp [checkerCycle, recvPhase, applyRemote, h1, h2, hb, hr]

/-- Witness for the amended C1: payload "banana" with the indicator off —
the cycle completes (no crash), no write happens and no state changes. -/
theorem c1_malformed_payload_witness :
    ("banana" ≠ ("1" : String)) ∧
    checkerCycle (fun _ => false) (checkerInit (fun _ => false) 0)
      ⟨RecvOutcome.msg (InMsg.text "banana"), true⟩ = ⟨false, 3, [], false⟩ := by
  refine ⟨by decide, ?_⟩
  rw [c1_malformed_payload_amended (fun _ => false) (checkerInit (fun _ => false) 0)
    "banana" (by decide) rfl rfl]
  decide

/-- Counterexample to C1 as stated: the payload "banana" received while
the indicator reads on is applied, not ignored — the reconciler invokes
set_capslock_state false (the wrote event) and flips last_state to off,
altering the indicator state the claim says must remain unchanged. -/
theorem c1_malformed_payload_cx :
    checkerCycle (fun _ => true) (checkerInit (fun _ => true) 0)
      ⟨RecvOutcome.msg (InMsg.text "banana"), true⟩ =
    ⟨false, 3, [Event.wrote false], false⟩ := by decide

end GlobalRustlock

namespace GlobalRustlock

/-- The receive phase never exits the loop: none of its arms sets the
stopped flag (the only break in the state-checker loop is the failed
send). -/
lemma recvPhase_stopped (reads : Nat → Bool) (last : Bool) (idx : Nat)
    (events : List Event) (r : RecvOutcome) :
    (recvPhase reads last idx events r).stopped = false := by
  cases r with
  | msg m => cases m <;> rfl
  | chanClosed => rfl
  | elapsed => rfl

/-- A cycle whose send (if attempted) succeeds leaves the stopped flag
unchanged: in particular a closed inbound channel does not stop the loop. -/
lemma checkerCycle_stopped_of_sendOk (reads : Nat → Bool) (st : CheckerSt) (inp : NetInput)
    (h : inp.sendOk = true) :
    (checkerCycle reads st inp).stopped = st.stopped := by
  cases hst : st.stopped
  · by_cases hd : reads st.idx ≠ st.last
    · simp [checkerCycle, hst, hd, h, recvPhase_stopped]
    · simp [checkerCycle, hst, hd, recvPhase_stopped]
  · simp [checkerCycle, hst]

/-- Over any number of cycles in which every attempted send succeeds, the
state-checker loop never exits. -/
lemma checkerRun_stopped_of_sendOk (reads : Nat → Bool) :
    ∀ (inputs : List NetInput) (st : CheckerSt),
      (∀ inp ∈ inputs, inp.sendOk = true) →
      (checkerRun reads st inputs).stopped = st.stopped := by
  intro inputs
  induction inputs with
  | nil => intro st _; rfl
  | cons inp rest ih =>
      intro st h
      simp only [checkerRun]
      rw [ih _ (fun i hi => h i (List.mem_cons_of_mem _ hi))]
      exact checkerCycle_stopped_of_sendOk reads st inp (h inp (List.mem_cons_self _ _))

/-- Claim C3 (corrected), amended part: terminating the inbound activity
does not stop the outbound activity — the select in main merely unblocks
the supervisor while dropping the other join handle detaches the task.
The state-checker loop exits only through a failed transport send: over
any cycles whose attempted sends succeed (whatever the reads, and however
many cycles see the closed channel), it is still running. -/
theorem c3_teardown_amended (reads : Nat → Bool) (st : CheckerSt) (inputs : List NetInput)
    (h : ∀ inp ∈ inputs, inp.sendOk = true) :
    (checkerRun reads st inputs).stopped = st.stopped :=
  checkerRun_stopped_of_sendOk reads inputs st h

/-- Witness for the amended C3: one cycle after the inbound channel
closed, the outbound loop is still running. -/
theorem c3_teardown_witness :
    (∀ inp ∈ [(⟨RecvOutcome.chanClosed, true⟩ : NetInput)], inp.sendOk = true) ∧
    (checkerRun (fun _ => false) (checkerInit (fun _ => false) 0)
      [⟨RecvOutcome.chanClosed, true⟩]).stopped = false := by
  refine ⟨by decide, ?_⟩
  rw [c3_teardown_amended (fun _ => false) (checkerInit (fun _ => false) 0)
    [⟨RecvOutcome.chanClosed, true⟩] (by decide)]
  rfl

/-- Counterexample to C3 as stated: the claim says that after the inbound
activity observes a closed transport the outbound activity stops within
one poll cycle; here the inbound channel has been closed for three full
cycles (the Ok(None) arm of the timeout match) and the outbound loop is
still running, with unchanged state and no events — it would keep polling
while the supervisor spawns a fresh session, so two outbound activities
coexist. -/
theorem c3_teardown_cx :
    checkerRun (fun _ => false) (checkerInit (fun _ => false) 0)
      (List.replicate 3 ⟨RecvOutcome.chanClosed, true⟩) =
    ⟨false, 4, [], false⟩ := by decide

/-- Steady-state lemma for the state-checker loop: if every oracle read
from the current index on returns b, the cached last_state is b, and every
drained text payload denotes b, then the loop sends nothing, writes
nothing, keeps last_state at b and keeps running. -/
lemma checkerRun_steady (reads : Nat → Bool) (b : Bool) :
    ∀ (inputs : List NetInput) (st : CheckerSt),
      st.stopped = false → st.last = b →
      (∀ i, st.idx ≤ i → reads i = b) →
      (∀ inp ∈ inputs, ∀ s, inp.recv = RecvOutcome.msg (InMsg.text s) → (s == "1") = b) →
      (checkerRun reads st inputs).last = b ∧
      (checkerRun reads st inputs).events = st.events ∧
      (checkerRun reads st inputs).stopped = false ∧
      st.idx ≤ (checkerRun reads st inputs).idx := by
  intro inputs
  induction inputs with
  | nil =>
      intro st h1 h2 _ _
      exact ⟨h2, rfl, h1, le_refl _⟩
  | cons inp rest ih =>
      intro st h1 h2 hr hm
      have hcur : reads st.idx = st.last := by rw [h2]; exact hr st.idx (le_refl _)
      obtain ⟨r, sOk⟩ := inp
      simp only [checkerRun]
      cases r with
      | msg m =>
          cases m with
          | text s =>
              have hs : (s == "1") = b :=
                hm ⟨RecvOutcome.msg (InMsg.text s), sOk⟩ (List.mem_cons_self _ _) s rfl
              have hre : reads (st.idx + 1) = b := hr _ (Nat.le_succ _)
              have hst' : checkerCycle reads st ⟨RecvOutcome.msg (InMsg.text s), sOk⟩
                  = ⟨st.last, st.idx + 1 + 1, st.events, false⟩ := by
                simp [checkerCycle, recvPhase, applyRemote, h1, hcur, hre, hs, h2]
              rw [hst']
              have hrest := ih ⟨st.last, st.idx + 1 + 1, st.events, false⟩ rfl h2
                (fun i hi => hr i (by have hi2 : st.idx + 1 + 1 ≤ i := hi; omega))
                (fun j hj => hm j (List.mem_cons_of_mem _ hj))
              exact ⟨hrest.1, hrest.2.1, hrest.2.2.1,
                le_trans (show st.idx ≤ st.idx + 1 + 1 by omega) hrest.2.2.2⟩
          | nonText =>
              have hst' : checkerCycle reads st ⟨RecvOutcome.msg InMsg.nonText, sOk⟩
                  = ⟨st.last, st.idx + 1, st.events, false⟩ := by
                simp [checkerCycle, recvPhase, h1, hcur]
              rw [hst']
              have hrest := ih ⟨st.last, st.idx + 1, st.events, false⟩ rfl h2
                (fun i hi => hr i (by have hi2 : st.idx + 1 ≤ i := hi; omega))
                (fun j hj => hm j (List.mem_cons_of_mem _ hj))
              exact ⟨hrest.1, hrest.2.1, hrest.2.2.1,
                le_trans (show st.idx ≤ st.idx + 1 by omega) hrest.2.2.2⟩
      | chanClosed =>
          have hst' : checkerCycle reads st ⟨RecvOutcome.chanClosed, sOk⟩
              = ⟨st.last, st.idx + 1, st.events, false⟩ := by
            simp [checkerCycle, recvPhase, h1, hcur]
          rw [hst']
          have hrest := ih ⟨st.last, st.idx + 1, st.events, false⟩ rfl h2
            (fun i hi => hr i (by have hi2 : st.idx + 1 ≤ i := hi; omega))
            (fun j hj => hm j (List.mem_cons_of_mem _ hj))
          exact ⟨hrest.1, hrest.2.1, hrest.2.2.1,
            le_trans (show st.idx ≤ st.idx + 1 by omega) hrest.2.2.2⟩
      | elapsed =>
          have hst' : checkerCycle reads st ⟨RecvOutcome.elapsed, sOk⟩
              = ⟨st.last, st.idx + 1, st.events, false⟩ := by
            simp [checkerCycle, recvPhase, h1, hcur]
          rw [hst']
          have hrest := ih ⟨st.last, st.idx + 1, st.events, false⟩ rfl h2
            (fun i hi => hr i (by have hi2 : st.idx + 1 ≤ i := hi; omega))
            (fun j hj => hm j (List.mem_cons_of_mem _ hj))
          exact ⟨hrest.1, hrest.2.1, hrest.2.2.1,
            le_trans (show st.idx ≤ st.idx + 1 by omega) hrest.2.2.2⟩

end GlobalRustlock

namespace GlobalRustlock

/-- Claim C5 (corrected), amended part: if the indicator value read by the
adapter never changes across a session and every remote text payload
drained during it denotes that same value, the outbound activity sends
nothing beyond the one initial baseline message (and invokes no write). -/
theorem c5_edge_trigger_amended (reads : Nat → Bool) (b : Bool) (inputs : List NetInput)
    (hreads : ∀ i, reads i = b)
    (hmsgs : ∀ inp ∈ inputs, ∀ s, inp.recv = RecvOutcome.msg (InMsg.text s) → (s == "1") = b) :
    sessionTrace reads inputs = [Event.sent (encodeState b)] := by
  have h := checkerRun_steady reads b inputs (checkerInit reads 1) rfl (hreads 1)
    (fun i _ => hreads i) hmsgs
  have he : (checkerRun reads (checkerInit reads 1) inputs).events = [] := h.2.1
  simp [sessionTrace, hreads 0, he]

/-- Witness for the amended C5: constant off reads and one quiet cycle —
the session trace is exactly the baseline "0". -/
theorem c5_edge_trigger_witness :
    (∀ i : Nat, (fun _ => false : Nat → Bool) i = false) ∧
    sessionTrace (fun _ => false) [⟨RecvOutcome.elapsed, true⟩]
      = [Event.sent (encodeState false)] := by
  refine ⟨fun i => rfl, ?_⟩
  rw [c5_edge_trigger_amended (fun _ => false) false [⟨RecvOutcome.elapsed, true⟩]
    (fun i => rfl)
    (fun inp hinp s hs => by
      rw [List.mem_singleton] at hinp
      subst hinp
      exact RecvOutcome.noConfusion hs)]

/-- Counterexample to C5 as stated: every adapter read of the session
returns off, yet the outbound activity sends "0" twice — the baseline and
a duplicate.  A drained remote "1" differs from the re-read off, so the
write is invoked and last_state becomes on; the write is not reflected in
any later read (the toggle's exit status is ignored by the source, and an
external toggle can revert it), so the next poll sees off differ from
last_state and re-sends "0": a non-baseline send with no transition of
the polled value, a duplicate send for an unchanged value. -/
theorem c5_edge_trigger_cx :
    sessionTrace (fun _ => false)
      [⟨RecvOutcome.msg (InMsg.text "1"), true⟩, ⟨RecvOutcome.elapsed, true⟩] =
    [Event.sent "0", Event.wrote true, Event.sent "0"] := by decide

/-- Claim C10 (confirmed): the state-checker task initializes last_state
from its own second, fresh read (oracle index 1), not from the baseline
read (index 0); hence if the indicator transitions between those two reads
and then holds its new value b, with no inbound traffic, that transition
is absorbed: last_state is b from the start, and the session sends
nothing beyond the baseline — the new value is never pushed outward. -/
theorem c10_second_read_absorb (reads : Nat → Bool) (b : Bool) (inputs : List NetInput)
    (hreads : ∀ i, 1 ≤ i → reads i = b)
    (hquiet : ∀ inp ∈ inputs, inp.recv = RecvOutcome.elapsed) :
    sessionTrace reads inputs = [Event.sent (encodeState (reads 0))] ∧
    (checkerRun reads (checkerInit reads 1) inputs).last = b := by
  have h := checkerRun_steady reads b inputs (checkerInit reads 1) rfl
    (hreads 1 (le_refl 1))
    (fun i hi => hreads i (by have hi2 : (1 : Nat) + 1 ≤ i := hi; omega))
    (fun inp hinp s hs => by
      rw [hquiet inp hinp] at hs
      exact RecvOutcome.noConfusion hs)
  have he : (checkerRun reads (checkerInit reads 1) inputs).events = [] := h.2.1
  exact ⟨by simp [sessionTrace, he], h.1⟩

/-- Witness for C10: the baseline read is off, every later read is on, one
quiet cycle; the trace is just the baseline "0" and last_state is on — the
off-to-on transition was absorbed and never sent. -/
theorem c10_second_read_absorb_witness :
    (∀ i : Nat, 1 ≤ i → (fun j => decide (1 ≤ j)) i = true) ∧
    sessionTrace (fun j => decide (1 ≤ j)) [⟨RecvOutcome.elapsed, true⟩]
      = [Event.sent "0"] ∧
    (checkerRun (fun j => decide (1 ≤ j))
      (checkerInit (fun j => decide (1 ≤ j)) 1) [⟨RecvOutcome.elapsed, true⟩]).last = true := by
  have h := c10_second_read_absorb (fun j => decide (1 ≤ j)) true [⟨RecvOutcome.elapsed, true⟩]
    (fun i hi => by simp [hi]) (by decide)
  refine ⟨fun i hi => by simp [hi], ?_, h.2⟩
  rw [h.1]
  decide

/-- All sleeps of the supervisor trace are the fixed 2000 ms delay, one
per connect error. -/
lemma supervisorTrace_filter_sleep (outs : List ConnectOutcome) :
    (supervisorTrace outs).filter isSleep
      = List.replicate (outs.countP isConnErr) (SupEvent.sleepMs 2000) := by
  induction outs with
  | nil => rfl
  | cons o rest ih =>
      cases o <;>
        simp [supervisorTrace, isSleep, isConnErr, List.countP_cons, ih, List.replicate_succ]

/-- The supervisor makes one connect attempt per loop iteration, however
long the run: retries are never capped. -/
lemma supervisorTrace_count_attempt (outs : List ConnectOutcome) :
    (supervisorTrace outs).countP isAttempt = outs.length := by
  induction outs with
  | nil => rfl
  | cons o rest ih => cases o <;> simp [supervisorTrace, isAttempt, List.countP_cons, ih]

/-- A supervisor trace is empty or starts with a connect attempt. -/
lemma supervisorTrace_head_shape (outs : List ConnectOutcome) :
    supervisorTrace outs = [] ∨ ∃ t, supervisorTrace outs = SupEvent.attempt :: t := by
  cases outs with
  | nil => exact Or.inl rfl
  | cons o rest => cases o <;> exact Or.inr ⟨_, rfl⟩

/-- Prepending a non-session event cannot create a session-then-sleep
pair at the front. -/
lemma sleepAfterSession_cons (e : SupEvent) (t : List SupEvent)
    (he : isSessionRun e = false) :
    sleepAfterSession (e :: t) = sleepAfterSession t := by
  cases t with
  | nil => simp [sleepAfterSession]
  | cons b r => simp [sleepAfterSession, he]

/-- Nowhere in a supervisor trace is a completed session followed by a
sleep: reconnection after a session is immediate. -/
lemma supervisorTrace_no_sleep_after_session (outs : List ConnectOutcome) :
    sleepAfterSession (supervisorTrace outs) = false := by
  induction outs with
  | nil => rfl
  | cons o rest ih =>
      cases o with
      | connErr =>
          simp only [supervisorTrace]
          rw [sleepAfterSession_cons SupEvent.attempt _ rfl,
            sleepAfterSession_cons (SupEvent.sleepMs 2000) _ rfl]
          exact ih
      | sendFail =>
          simp only [supervisorTrace]
          rw [sleepAfterSession_cons SupEvent.attempt _ rfl]
          exact ih
      | session =>
          simp only [supervisorTrace]
          rw [sleepAfterSession_cons SupEvent.attempt _ rfl]
          rcases supervisorTrace_head_shape rest with h | ⟨t, h⟩
          · rw [h]; rfl
          · rw [h]
            rw [show sleepAfterSession (SupEvent.sessionRun :: SupEvent.attempt :: t)
                = sleepAfterSession (SupEvent.attempt :: t) from by
              simp [sleepAfterSession, isSessionRun, isSleep]]
            rw [← h]
            exact ih

/-- Claim C8 (confirmed): in every run of the supervisor loop, each failed
connect is followed by exactly the fixed 2-second sleep — every sleep in
the trace is 2000 ms and there is one per connect error, so there is no
backoff growth; one connect attempt happens per outcome however many
there are, so retries are uncapped; and a completed session is never
followed by a sleep — after a connected session ends the loop re-attempts
immediately. -/
theorem c8_supervisor_retry (outs : List ConnectOutcome) :
    (supervisorTrace outs).filter isSleep
        = List.replicate (outs.countP isConnErr) (SupEvent.sleepMs 2000)
    ∧ (supervisorTrace outs).countP isAttempt = outs.length
    ∧ sleepAfterSession (supervisorTrace outs) = false :=
  ⟨supervisorTrace_filter_sleep outs, supervisorTrace_count_attempt outs,
    supervisorTrace_no_sleep_after_session outs⟩

end GlobalRustlock
